import Mathlib

/-!
Verification of the fuzzy-scoring core of the esguinces/torceduras service.

The embedding follows the source:
* `gaussian_membership` and the `/fuzzy` endpoint from `app.py`;
* the Cypher fuzzification `fuzz_gauss_dolor`, the entropy computation
  `entropy_dolor` and the alert rule `rule_alerta_riesgo_alto` from
  `logicaDifusa.py`;
* the string-match alert rule `CYpher_REGLA_HEMATOMA_SEVERO` from
  `esguincestorceduras.py`.

Real-valued computations are embedded over `ℝ`; stored alert state is
embedded as explicit lists of records; Cypher `datetime()` is a `ℕ`
parameter supplied by the caller.
-/

namespace Esguinces

/-- Rounding to `n` decimal places, as Python `round(x, n)` / Cypher
`round(x, n)` behave away from ties: multiply by `10^n`, round to the
nearest integer, divide back. -/
noncomputable def roundTo (n : ℕ) (x : ℝ) : ℝ :=
  (round (x * 10 ^ n) : ℤ) / 10 ^ n

/-- From `app.py`: `gaussian_membership(x, mu, sigma)`; returns `0.0` for
`sigma <= 0`, otherwise `exp(-((x - mu)^2) / (2 * sigma^2))`. -/
noncomputable def gaussian_membership (x mu sigma : ℝ) : ℝ :=
  if sigma ≤ 0 then 0
  else Real.exp (-((x - mu) ^ 2) / (2 * sigma ^ 2))

/-- Cypher `coalesce` on an optional real property. -/
def coalesceR (o : Option ℝ) (d : ℝ) : ℝ :=
  o.getD d

/-- From `logicaDifusa.py`, query `fuzz_gauss_dolor`: the membership of the
crisp value `x` in one category with center `a` and stored spread property
`b`; a missing spread is coalesced to `1e-6`, and the spread is squared
with no sign check: `exp(-((x - a)*(x - a)) / (2.0 * (b * b)))`. -/
noncomputable def fuzz_gauss_mu (x a : ℝ) (b : Option ℝ) : ℝ :=
  Real.exp (-((x - a) * (x - a)) / (2 * (coalesceR b 1e-6 * coalesceR b 1e-6)))

end Esguinces

open Esguinces

/-- Claim C4: for every center and every spread > 0,
`gaussian_membership(center, center, spread)` returns exactly `1.0`. -/
theorem gaussian_membership_at_center (mu s : ℝ) (h : 0 < s) :
    gaussian_membership mu mu s = 1 := by
  rw [gaussian_membership, if_neg (not_le.mpr h)]
  norm_num

/-- Witness for C4: Scenario B, `membership(5.0, 5.0, 1.5) == 1.0`. -/
theorem gaussian_membership_at_center_witness :
    gaussian_membership 5 5 (3 / 2) = 1 :=
  gaussian_membership_at_center 5 (3 / 2) (by norm_num)

/-- Claim C5: for every `x`, `center` and `spread > 0`, the membership
function is symmetric around the center:
`membership(x, center, spread) = membership(2*center - x, center, spread)`. -/
theorem gaussian_membership_symm (x mu s : ℝ) (h : 0 < s) :
    gaussian_membership x mu s = gaussian_membership (2 * mu - x) mu s := by
  rw [gaussian_membership, gaussian_membership, if_neg (not_le.mpr h),
    if_neg (not_le.mpr h)]
  congr 1
  ring

/-- Witness for C5: symmetry at `x = 7`, `center = 8`, `spread = 1.2`. -/
theorem gaussian_membership_symm_witness :
    gaussian_membership 7 8 (6 / 5) = gaussian_membership 9 8 (6 / 5) := by
  have h := gaussian_membership_symm 7 8 (6 / 5) (by norm_num)
  norm_num at h
  exact h

/-- Claim C3 counterexample: the Cypher fuzzification path does not apply
the degenerate-spread policy: with the stored spread `b = -1.2 ≤ 0` and the
crisp value at the center, `fuzz_gauss_dolor` computes a membership of `1`,
not `0`. -/
theorem fuzz_gauss_negative_spread_not_zero :
    (-(6 / 5) : ℝ) ≤ 0 ∧ fuzz_gauss_mu 8 8 (some (-(6 / 5))) = 1 ∧
      fuzz_gauss_mu 8 8 (some (-(6 / 5))) ≠ 0 := by
  have h : fuzz_gauss_mu 8 8 (some (-(6 / 5))) = 1 := by
    rw [fuzz_gauss_mu]
    norm_num [coalesceR, Real.exp_zero]
  refine ⟨by norm_num, h, ?_⟩
  rw [h]
  norm_num

/-- Claim C3 amended: `gaussian_membership` in `app.py` returns exactly `0`
whenever `spread ≤ 0`, but this policy is applied only by that path: the
Cypher fuzzification `fuzz_gauss_dolor` squares the stored spread with no
sign check, so a spread `b` and its negation `-b` yield the same (generally
nonzero) membership. -/
theorem gaussian_membership_degenerate_policy (x mu s y a b : ℝ) :
    (s ≤ 0 → gaussian_membership x mu s = 0) ∧
      fuzz_gauss_mu y a (some b) = fuzz_gauss_mu y a (some (-b)) := by
  constructor
  · intro hs
    rw [gaussian_membership, if_pos hs]
  · rw [fuzz_gauss_mu, fuzz_gauss_mu]
    simp [coalesceR, neg_mul_neg]

/-- Witness for the amended C3 at `spread = 0` for `gaussian_membership`
and `b = 5` for the Cypher path. -/
theorem gaussian_membership_degenerate_policy_witness :
    gaussian_membership 1 2 0 = 0 ∧
      fuzz_gauss_mu 3 7 (some 5) = fuzz_gauss_mu 3 7 (some (-5)) :=
  ⟨(gaussian_membership_degenerate_policy 1 2 0 3 7 5).1 (by norm_num),
    (gaussian_membership_degenerate_policy 1 2 0 3 7 5).2⟩

namespace Esguinces

/-- Scenario A input reduces to `exp (-(25/288))`. -/
lemma gm_scenarioA_eq :
    gaussian_membership 7.5 8 1.2 = Real.exp (-(25 / 288)) := by
  rw [gaussian_membership, if_neg (by norm_num)]
  congr 1
  norm_num

/-- Rational bounds for `exp (-(25/288))`, from the degree-3 Taylor
estimate: the value lies in `[0.9165, 0.9175)`, so it rounds to `0.917`. -/
lemma exp_scenarioA_bounds :
    (9165 / 10000 : ℝ) ≤ Real.exp (-(25 / 288)) ∧
      Real.exp (-(25 / 288)) < 9175 / 10000 := by
  have habs : |(-(25 / 288) : ℝ)| ≤ 1 := by
    rw [abs_neg, abs_of_nonneg (by norm_num : (0 : ℝ) ≤ 25 / 288)]
    norm_num
  have hn : 0 < 3 := by norm_num
  have hb := Real.exp_bound habs hn
  have hsum : ∑ m ∈ Finset.range 3, (-(25 / 288) : ℝ) ^ m / m.factorial
      = 152113 / 165888 := by
    simp [Finset.sum_range_succ, Nat.factorial]
    norm_num
  have habs2 : |(-(25 / 288) : ℝ)| = 25 / 288 := by
    rw [abs_neg, abs_of_nonneg (by norm_num : (0 : ℝ) ≤ 25 / 288)]
  rw [hsum, habs2] at hb
  norm_num [Nat.factorial] at hb
  obtain ⟨h1, h2⟩ := abs_le.mp hb
  constructor <;> linarith

/-- The 3-decimal rounding step of Scenario A yields `917`. -/
lemma round_scenarioA : round (Real.exp (-(25 / 288)) * 10 ^ 3) = 917 := by
  obtain ⟨h1, h2⟩ := exp_scenarioA_bounds
  rw [round_eq, Int.floor_eq_iff]
  constructor <;> push_cast <;> linarith

end Esguinces

/-- Claim C6 counterexample: `membership(7.5, 8.0, 1.2)` rounded to 3
decimal places is not `0.851`. -/
theorem membership_scenarioA_not_0851 :
    roundTo 3 (gaussian_membership 7.5 8 1.2) ≠ 851 / 1000 := by
  rw [gm_scenarioA_eq]
  unfold roundTo
  rw [round_scenarioA]
  norm_num

/-- Claim C6 amended: `membership(7.5, 8.0, 1.2) = exp(-25/288) ≈ 0.9170`,
so rounded to 3 decimal places it is `0.917`, not `0.851`. -/
theorem membership_scenarioA_value :
    roundTo 3 (gaussian_membership 7.5 8 1.2) = 917 / 1000 := by
  rw [gm_scenarioA_eq]
  unfold roundTo
  rw [round_scenarioA]
  norm_num

namespace Esguinces

/-- One term of the Cypher `reduce` accumulator in `entropy_dolor`:
`CASE WHEN m > 0 THEN -(m * log(m)) ELSE 0.0 END` (`log` is natural). -/
noncomputable def entropyTerm (m : ℝ) : ℝ :=
  if 0 < m then -(m * Real.log m) else 0

/-- From `logicaDifusa.py`, query `entropy_dolor`: normalized fuzzy entropy
of the three stored memberships,
`reduce(h = 0.0, m IN U | h + CASE ...) / log(3.0)`. -/
noncomputable def entropy_dolor_Hnorm (u1 u2 u3 : ℝ) : ℝ :=
  (0 + entropyTerm u1 + entropyTerm u2 + entropyTerm u3) / Real.log 3

/-- `entropy_dolor` persists `round(Hnorm, 4)` on the slot (`s.entropia`). -/
noncomputable def entropy_dolor_stored (u1 u2 u3 : ℝ) : ℝ :=
  roundTo 4 (entropy_dolor_Hnorm u1 u2 u3)

/-- Each entropy term is nonnegative for memberships at most `1`. -/
lemma entropyTerm_nonneg {m : ℝ} (h1 : m ≤ 1) : 0 ≤ entropyTerm m := by
  rw [entropyTerm]
  split
  · rename_i hm
    have hlog : Real.log m ≤ 0 := Real.log_nonpos hm.le h1
    nlinarith
  · exact le_refl 0

/-- Each entropy term is at most `1/e` (the maximum of `-m·ln m`). -/
lemma entropyTerm_le_inv_e (m : ℝ) : entropyTerm m ≤ (Real.exp 1)⁻¹ := by
  rw [entropyTerm]
  split
  · rename_i hm
    have hx : (0 : ℝ) < (m * Real.exp 1)⁻¹ := by positivity
    have hlog := Real.log_le_sub_one_of_pos hx
    rw [Real.log_inv, Real.log_mul (ne_of_gt hm) (Real.exp_ne_zero 1),
      Real.log_exp] at hlog
    have h2 : -Real.log m ≤ (m * Real.exp 1)⁻¹ := by linarith
    have h3 : m * -Real.log m ≤ m * (m * Real.exp 1)⁻¹ :=
      mul_le_mul_of_nonneg_left h2 hm.le
    have h4 : m * (m * Real.exp 1)⁻¹ = (Real.exp 1)⁻¹ := by
      rw [mul_inv, ← mul_assoc, mul_inv_cancel₀ (ne_of_gt hm), one_mul]
    nlinarith
  · positivity

end Esguinces

/-- Claim C1 counterexample: the membership vector `(1/e, 1/e, 1/e)` has
all entries in `[0,1]`, yet the normalized fuzzy entropy computed by
`entropy_dolor` equals `3/(e·ln 3) ≈ 1.0046 > 1`, violating the claimed
upper bound `1`. -/
theorem entropy_dolor_exceeds_one :
    (0 ≤ Real.exp (-1) ∧ Real.exp (-1) ≤ 1) ∧
      1 < entropy_dolor_Hnorm (Real.exp (-1)) (Real.exp (-1))
        (Real.exp (-1)) := by
  have he1 : (0 : ℝ) < Real.exp (-1) := Real.exp_pos _
  have hle : Real.exp (-1) ≤ 1 := by
    rw [show (1 : ℝ) = Real.exp 0 from Real.exp_zero.symm]
    exact Real.exp_le_exp.mpr (by norm_num)
  refine ⟨⟨he1.le, hle⟩, ?_⟩
  have hterm : entropyTerm (Real.exp (-1)) = Real.exp (-1) := by
    rw [entropyTerm, if_pos he1, Real.log_exp]
    ring
  have hlog3 : (0 : ℝ) < Real.log 3 := Real.log_pos (by norm_num)
  have hkey : Real.log 3 < 3 * Real.exp (-1) := by
    have hpos : (0 : ℝ) < 3 / Real.exp 1 := by positivity
    have h3 : Real.exp 1 < 3 := lt_trans Real.exp_one_lt_d9 (by norm_num)
    have hne : (3 : ℝ) / Real.exp 1 ≠ 1 := by
      intro hcontra
      rw [div_eq_one_iff_eq (Real.exp_ne_zero 1)] at hcontra
      exact absurd hcontra (by linarith)
    have hlt := Real.log_lt_sub_one_of_pos hpos hne
    rw [Real.log_div (by norm_num) (Real.exp_ne_zero 1), Real.log_exp] at hlt
    rw [Real.exp_neg]
    have hdiv : 3 / Real.exp 1 = 3 * (Real.exp 1)⁻¹ := by
      rw [div_eq_mul_inv]
    linarith
  rw [entropy_dolor_Hnorm, hterm, one_lt_div hlog3]
  linarith

/-- Claim C1 amended: for the three-category entropy computed by
`entropy_dolor`, memberships in `[0,1]` yield a normalized entropy in
`[0, 3/(e·ln 3)]` — the tight upper bound is `3/(e·ln 3) ≈ 1.0046`, which
slightly exceeds the claimed bound `1` — and the all-zero membership vector
has entropy `0`. -/
theorem entropy_dolor_range (u1 u2 u3 : ℝ)
    (_h1 : 0 ≤ u1) (h1' : u1 ≤ 1) (_h2 : 0 ≤ u2) (h2' : u2 ≤ 1)
    (_h3 : 0 ≤ u3) (h3' : u3 ≤ 1) :
    (0 ≤ entropy_dolor_Hnorm u1 u2 u3 ∧
      entropy_dolor_Hnorm u1 u2 u3 ≤ 3 * (Real.exp 1)⁻¹ / Real.log 3) ∧
      entropy_dolor_Hnorm 0 0 0 = 0 := by
  have hlog3 : (0 : ℝ) < Real.log 3 := Real.log_pos (by norm_num)
  refine ⟨⟨?_, ?_⟩, ?_⟩
  · apply div_nonneg _ hlog3.le
    have t1 := entropyTerm_nonneg h1'
    have t2 := entropyTerm_nonneg h2'
    have t3 := entropyTerm_nonneg h3'
    linarith
  · rw [entropy_dolor_Hnorm, div_le_div_iff_of_pos_right hlog3]
    have t1 := entropyTerm_le_inv_e u1
    have t2 := entropyTerm_le_inv_e u2
    have t3 := entropyTerm_le_inv_e u3
    linarith
  · simp [entropy_dolor_Hnorm, entropyTerm]

/-- Witness for the amended C1 at the membership vector `(1/2, 1/2, 1/2)`. -/
theorem entropy_dolor_range_witness :
    (0 ≤ entropy_dolor_Hnorm (1 / 2) (1 / 2) (1 / 2) ∧
      entropy_dolor_Hnorm (1 / 2) (1 / 2) (1 / 2) ≤
        3 * (Real.exp 1)⁻¹ / Real.log 3) ∧
      entropy_dolor_Hnorm 0 0 0 = 0 :=
  entropy_dolor_range (1 / 2) (1 / 2) (1 / 2) (by norm_num) (by norm_num)
    (by norm_num) (by norm_num) (by norm_num) (by norm_num)

namespace Esguinces

/-- Cypher `coalesce` on an optional stored membership value. -/
def coalesceQ (o : Option ℚ) (d : ℚ) : ℚ :=
  o.getD d

/-- Alert record shape written by `rule_alerta_riesgo_alto` in
`logicaDifusa.py`: `codigo`, `ts`, `severidad`, `descripcion`,
`resuelta`. -/
structure AlertaRiesgo where
  codigo : String
  ts : ℕ
  severidad : String
  descripcion : String
  resuelta : Bool
deriving DecidableEq

/-- The fixed alert code of `rule_alerta_riesgo_alto`. -/
def riesgoCodigo : String := "RIESGO_ALTO_ESGUINCE"

/-- The fixed alert description of `rule_alerta_riesgo_alto`. -/
def riesgoDescripcion : String :=
  "Dolor severo y baja mejoría en esguince/torcedura"

/-- The plain `SET` clause of `rule_alerta_riesgo_alto`: executed on every
firing, it overwrites `ts` with the current time, `severidad`,
`descripcion`, and `resuelta` (back to `false`). -/
def setAlertaRiesgo (now : ℕ) (a : AlertaRiesgo) : AlertaRiesgo :=
  { a with
    ts := now
    severidad := "alta"
    descripcion := riesgoDescripcion
    resuelta := false }

/-- `MERGE (al:Alerta {codigo:'RIESGO_ALTO_ESGUINCE'}) SET ...`: if a
record with the code exists it is updated in place by the `SET` clause;
otherwise a node carrying only `codigo` is created and then updated. -/
def mergeAlertaRiesgo (now : ℕ) (store : List AlertaRiesgo) :
    List AlertaRiesgo :=
  if store.any (fun a => a.codigo == riesgoCodigo) then
    store.map (fun a =>
      if a.codigo == riesgoCodigo then setAlertaRiesgo now a else a)
  else
    store ++ [setAlertaRiesgo now
      { codigo := riesgoCodigo, ts := 0, severidad := "", descripcion := "",
        resuelta := false }]

/-- From `logicaDifusa.py`: `rule_alerta_riesgo_alto` fires exactly when
`coalesce(sd.mu_severo, 0.0) >= 0.7` and `coalesce(sm.mu_baja, 0.0) >= 0.6`;
on firing it merges the alert keyed by its code, otherwise the alert store
is untouched. -/
def rule_alerta_riesgo_alto (muSevero muBaja : Option ℚ) (now : ℕ)
    (store : List AlertaRiesgo) : List AlertaRiesgo :=
  if 7 / 10 ≤ coalesceQ muSevero 0 ∧ 6 / 10 ≤ coalesceQ muBaja 0 then
    mergeAlertaRiesgo now store
  else store

/-- A symptom row as matched by `CYpher_REGLA_HEMATOMA_SEVERO`: the
`nombre` and `intensidad` properties of a `Sintoma` presented by a
patient. -/
structure Sintoma where
  nombre : String
  intensidad : String
deriving DecidableEq

/-- Alert record shape written by `CYpher_REGLA_HEMATOMA_SEVERO` in
`esguincestorceduras.py`. -/
structure AlertaDerivacion where
  codigo : String
  descripcion : String
  created_at : ℕ
  resuelta : Bool
deriving DecidableEq

/-- The fixed alert code of `CYpher_REGLA_HEMATOMA_SEVERO`. -/
def derivacionCodigo : String := "DERIVACION_INMEDIATA_DOLOR"

/-- The alert produced by the `ON CREATE SET` clause on first firing. -/
def nuevaAlertaDerivacion (now : ℕ) : AlertaDerivacion :=
  { codigo := derivacionCodigo,
    descripcion := "Dolor intenso: se recomienda derivación médica inmediata",
    created_at := now, resuelta := false }

/-- `MERGE (a:Alerta {codigo: 'DERIVACION_INMEDIATA_DOLOR'}) ON CREATE SET`:
fields are written only when the record is created; a repeat `MERGE` leaves
the existing record untouched. -/
def mergeAlertaDerivacion (now : ℕ) (store : List AlertaDerivacion) :
    List AlertaDerivacion :=
  if store.any (fun a => a.codigo == derivacionCodigo) then store
  else store ++ [nuevaAlertaDerivacion now]

/-- From `esguincestorceduras.py`: the string-match rule fires when some
presented symptom satisfies `s.intensidad = 'Intenso'` and
`toLower(s.nombre) = 'dolor'`; on firing it merges the alert keyed by its
code with `ON CREATE SET` semantics. -/
def regla_hematoma_severo (sintomas : List Sintoma) (now : ℕ)
    (store : List AlertaDerivacion) : List AlertaDerivacion :=
  if sintomas.any (fun s =>
      s.intensidad == "Intenso" && s.nombre.toLower == "dolor") then
    mergeAlertaDerivacion now store
  else store

end Esguinces

/-- Claim C2 counterexample: the threshold rule is not an idempotent upsert
on the immutable fields. Firing it a second time with the same memberships
changes the stored record — the timestamp is overwritten with the new
firing time — and firing it over a store whose alert was resolved resets
`resuelta` to `false`. -/
theorem riesgo_alto_second_firing_changes_record :
    rule_alerta_riesgo_alto (some (8 / 10)) (some (7 / 10)) 1
        (rule_alerta_riesgo_alto (some (8 / 10)) (some (7 / 10)) 0 []) ≠
      rule_alerta_riesgo_alto (some (8 / 10)) (some (7 / 10)) 0 [] ∧
    (rule_alerta_riesgo_alto (some (8 / 10)) (some (7 / 10)) 1
        [{ codigo := riesgoCodigo, ts := 0, severidad := "alta",
           descripcion := riesgoDescripcion, resuelta := true }]).map
        (fun a => a.resuelta) = [false] := by
  have hfire : (7 / 10 : ℚ) ≤ coalesceQ (some (8 / 10)) 0 ∧
      (6 / 10 : ℚ) ≤ coalesceQ (some (7 / 10)) 0 := by
    constructor <;> norm_num [coalesceQ]
  constructor
  · unfold rule_alerta_riesgo_alto
    rw [if_pos hfire, if_pos hfire]
    unfold mergeAlertaRiesgo
    simp [setAlertaRiesgo, riesgoCodigo]
  · unfold rule_alerta_riesgo_alto
    rw [if_pos hfire]
    unfold mergeAlertaRiesgo
    simp [setAlertaRiesgo, riesgoCodigo]

/-- Claim C2 amended: both rules keep exactly one Alert record keyed by the
alert code, and the string-match rule is a true idempotent upsert — its
second firing is a no-op, preserving `created_at` and `resuelta`; the
threshold rule, however, uses a plain `SET`, so each repeat firing
overwrites `ts` with the current firing time and resets `resuelta` to
`false`. -/
theorem alert_upsert_semantics (sintomas : List Sintoma)
    (st : List AlertaDerivacion) (n₁ n₂ : ℕ) (muS muB : Option ℚ)
    (hS : 7 / 10 ≤ coalesceQ muS 0) (hB : 6 / 10 ≤ coalesceQ muB 0) :
    regla_hematoma_severo sintomas n₂ (regla_hematoma_severo sintomas n₁ st) =
      regla_hematoma_severo sintomas n₁ st ∧
    rule_alerta_riesgo_alto muS muB n₂
        (rule_alerta_riesgo_alto muS muB n₁ []) =
      [{ codigo := riesgoCodigo, ts := n₂, severidad := "alta",
         descripcion := riesgoDescripcion, resuelta := false }] := by
  constructor
  · unfold regla_hematoma_severo
    by_cases h : (sintomas.any (fun s =>
        s.intensidad == "Intenso" && s.nombre.toLower == "dolor")) = true
    · rw [if_pos h, if_pos h]
      unfold mergeAlertaDerivacion
      by_cases h2 : (st.any (fun a => a.codigo == derivacionCodigo)) = true
      · rw [if_pos h2, if_pos h2]
      · rw [if_neg h2]
        have hnew : ((st ++ [nuevaAlertaDerivacion n₁]).any
            (fun a => a.codigo == derivacionCodigo)) = true := by
          rw [List.any_append]
          simp [nuevaAlertaDerivacion]
        rw [if_pos hnew]
    · rw [if_neg h, if_neg h]
  · unfold rule_alerta_riesgo_alto
    rw [if_pos ⟨hS, hB⟩, if_pos ⟨hS, hB⟩]
    unfold mergeAlertaRiesgo
    simp [setAlertaRiesgo]

/-- Witness for the amended C2: both firings at concrete inputs. -/
theorem alert_upsert_semantics_witness :
    regla_hematoma_severo [⟨"Dolor", "Intenso"⟩] 1
        (regla_hematoma_severo [⟨"Dolor", "Intenso"⟩] 0 []) =
      regla_hematoma_severo [⟨"Dolor", "Intenso"⟩] 0 [] ∧
    rule_alerta_riesgo_alto (some (8 / 10)) (some (7 / 10)) 1
        (rule_alerta_riesgo_alto (some (8 / 10)) (some (7 / 10)) 0 []) =
      [{ codigo := riesgoCodigo, ts := 1, severidad := "alta",
         descripcion := riesgoDescripcion, resuelta := false }] :=
  alert_upsert_semantics [⟨"Dolor", "Intenso"⟩] [] 0 1 (some (8 / 10))
    (some (7 / 10)) (by norm_num [coalesceQ]) (by norm_num [coalesceQ])

/-- Claim C7: the high-risk rule with thresholds `(severe ≥ 0.7, low ≥ 0.6)`
does not fire when the severe membership is `0.65` — the alert store is
returned unchanged, whatever the low membership — and does fire when the
severe membership is `0.75` and the low membership is `0.62`, upserting the
alert. -/
theorem riesgo_alto_threshold_scenarioF (muBaja : Option ℚ) (now : ℕ)
    (store : List AlertaRiesgo) :
    rule_alerta_riesgo_alto (some (65 / 100)) muBaja now store = store ∧
    rule_alerta_riesgo_alto (some (75 / 100)) (some (62 / 100)) now [] =
      [{ codigo := riesgoCodigo, ts := now, severidad := "alta",
         descripcion := riesgoDescripcion, resuelta := false }] := by
  constructor
  · unfold rule_alerta_riesgo_alto
    rw [if_neg]
    intro hcon
    have h1 := hcon.1
    norm_num [coalesceQ] at h1
  · unfold rule_alerta_riesgo_alto
    rw [if_pos]
    · rfl
    · constructor <;> norm_num [coalesceQ]

namespace Esguinces

/-- Request body of the `/fuzzy` endpoint (`FuzzyQuery` in `app.py`). -/
structure FuzzyQuery where
  indicador_nombre : String
  valor : Option ℝ
  media : ℝ
  sigma : ℝ
  dni : Option ℤ
  sintoma : Option String

/-- Success payload of the `/fuzzy` endpoint. -/
structure FuzzyOk where
  indicador : String
  valor : ℝ
  gauss_media : ℝ
  gauss_sigma : ℝ
  pertenencia : ℝ

/-- Response of the `/fuzzy` endpoint: a structured success payload or a
structured error payload carrying a message. -/
inductive FuzzyResult where
  | ok : FuzzyOk → FuzzyResult
  | error : String → FuzzyResult

/-- The message of the unresolved-value error branch of `/fuzzy`. -/
def fuzzyErrorMsg : String :=
  "No hay valor del indicador. Proporcione el valor o (paciente+sintoma)"

/-- The crisp value the `/fuzzy` handler resolves: the request body's
`valor` when present; otherwise, only when `q.dni` and `q.sintoma` are both
present and truthy in the Python sense (`0` and the empty string are
falsy), the graph lookup `fetch_indicator_value(dni, sintoma,
indicador_nombre)` — the graph store is abstracted as `lookup`. -/
def resolvedValor (lookup : ℤ → String → String → Option ℝ)
    (q : FuzzyQuery) : Option ℝ :=
  match q.valor with
  | some v => some v
  | none =>
    match q.dni, q.sintoma with
    | some d, some s =>
      if d != 0 && s != "" then lookup d s q.indicador_nombre else none
    | _, _ => none

/-- From `app.py`: the `/fuzzy` handler. An unresolved value yields the
structured error payload; otherwise the membership is computed by
`gaussian_membership` and rounded to 4 decimals in the response. -/
noncomputable def fuzzy (lookup : ℤ → String → String → Option ℝ)
    (q : FuzzyQuery) : FuzzyResult :=
  match resolvedValor lookup q with
  | none => FuzzyResult.error fuzzyErrorMsg
  | some x =>
    FuzzyResult.ok
      { indicador := q.indicador_nombre
        valor := x
        gauss_media := q.media
        gauss_sigma := q.sigma
        pertenencia := roundTo 4 (gaussian_membership x q.media q.sigma) }

/-- A graph store with no matching indicator. -/
def lookupVacio : ℤ → String → String → Option ℝ :=
  fun _ _ _ => none

/-- A graph store in which every lookup finds the indicator value `5`. -/
noncomputable def lookupConValor : ℤ → String → String → Option ℝ :=
  fun _ _ _ => some 5

/-- Scenario E request: no direct value and no lookup keys. -/
noncomputable def consultaSinValor : FuzzyQuery :=
  { indicador_nombre := "edema"
    valor := none
    media := 8
    sigma := 1.2
    dni := none
    sintoma := none }

/-- A request with a direct value, used to exercise the success path. -/
noncomputable def consultaConValor : FuzzyQuery :=
  { indicador_nombre := "edema"
    valor := some 8
    media := 8
    sigma := 6 / 5
    dni := none
    sintoma := none }

/-- The success payload of `consultaConValor`. -/
noncomputable def respuestaConValor : FuzzyOk :=
  { indicador := "edema"
    valor := 8
    gauss_media := 8
    gauss_sigma := 6 / 5
    pertenencia := roundTo 4 (gaussian_membership 8 8 (6 / 5)) }

/-- A request whose `dni` is `0` (falsy in Python), with a nonempty
symptom, used to show the lookup is skipped. -/
noncomputable def consultaDniCero : FuzzyQuery :=
  { indicador_nombre := "edema"
    valor := none
    media := 2
    sigma := 1
    dni := some 0
    sintoma := some "dolor de tobillo" }

end Esguinces

/-- Claim C8: whenever no crisp value can be resolved — none supplied
directly and none obtained through the lookup path — the `/fuzzy` operation
returns the structured error payload rather than raising; in particular a
request with no value and no lookup keys (Scenario E) resolves nothing. -/
theorem fuzzy_unresolved_error (lookup : ℤ → String → String → Option ℝ)
    (q : FuzzyQuery) :
    (resolvedValor lookup q = none →
      fuzzy lookup q = FuzzyResult.error fuzzyErrorMsg) ∧
    (q.valor = none → q.dni = none → q.sintoma = none →
      resolvedValor lookup q = none) := by
  constructor
  · intro h
    simp [fuzzy, h]
  · intro hv hd hs
    simp [resolvedValor, hv, hd, hs]

/-- Witness for C8: Scenario E on an empty graph store errors. -/
theorem fuzzy_unresolved_error_witness :
    fuzzy lookupVacio consultaSinValor = FuzzyResult.error fuzzyErrorMsg :=
  (fuzzy_unresolved_error lookupVacio consultaSinValor).1
    ((fuzzy_unresolved_error lookupVacio consultaSinValor).2 rfl rfl rfl)

/-- Claim C10: when the direct value is absent, the graph lookup is
attempted only if `dni` and `sintoma` are both provided and truthy. A
request with `dni = 0` or with an empty symptom string returns the
unresolved-value error for every possible graph store — even one in which
a matching indicator exists — so no lookup is consulted. -/
theorem fuzzy_lookup_requires_truthy_keys
    (lookup : ℤ → String → String → Option ℝ) (q : FuzzyQuery)
    (hv : q.valor = none) (hkeys : q.dni = some 0 ∨ q.sintoma = some "") :
    fuzzy lookup q = FuzzyResult.error fuzzyErrorMsg := by
  have hres : resolvedValor lookup q = none := by
    rcases hkeys with hd | hs
    · rw [resolvedValor, hv, hd]
      cases q.sintoma <;> simp
    · rw [resolvedValor, hv, hs]
      cases q.dni <;> simp
  simp [fuzzy, hres]

/-- Witness for C10: `dni = 0` with a matching indicator in the store still
errors. -/
theorem fuzzy_lookup_requires_truthy_keys_witness :
    fuzzy lookupConValor consultaDniCero = FuzzyResult.error fuzzyErrorMsg :=
  fuzzy_lookup_requires_truthy_keys lookupConValor consultaDniCero rfl
    (Or.inl rfl)

/-- Claim C9: the two numeric scores the core emits or persists carry
exactly 4 decimal places: the membership degree of every successful
`/fuzzy` response is an integer multiple of `10⁻⁴`, and the entropy value
`entropy_dolor` stores on the slot is an integer multiple of `10⁻⁴`. -/
theorem scores_rounded_to_4_decimals
    (lookup : ℤ → String → String → Option ℝ) (q : FuzzyQuery)
    (p : FuzzyOk) (h : fuzzy lookup q = FuzzyResult.ok p) (u1 u2 u3 : ℝ) :
    (∃ k : ℤ, p.pertenencia = (k : ℝ) / 10 ^ 4) ∧
      ∃ k : ℤ, entropy_dolor_stored u1 u2 u3 = (k : ℝ) / 10 ^ 4 := by
  constructor
  · rw [fuzzy] at h
    cases hres : resolvedValor lookup q with
    | none =>
      rw [hres] at h
      exact FuzzyResult.noConfusion h
    | some x =>
      rw [hres] at h
      injection h with h2
      subst h2
      exact ⟨round (gaussian_membership x q.media q.sigma * 10 ^ 4), rfl⟩
  · exact ⟨round (entropy_dolor_Hnorm u1 u2 u3 * 10 ^ 4), rfl⟩

/-- Witness for C9 on the success path of `consultaConValor` and the
all-zero membership vector. -/
theorem scores_rounded_to_4_decimals_witness :
    (∃ k : ℤ, respuestaConValor.pertenencia = (k : ℝ) / 10 ^ 4) ∧
      ∃ k : ℤ, entropy_dolor_stored 0 0 0 = (k : ℝ) / 10 ^ 4 :=
  scores_rounded_to_4_decimals lookupVacio consultaConValor respuestaConValor
    rfl 0 0 0
